import Mathlib

/-!
Verification development for the multi-city weather dashboard
(`smart_weather.py`).  The Python program is shallowly embedded: each
pandas/sqlite data frame becomes a `List` of records with rational-valued
metrics and integer timestamps, each streamlit rendering branch becomes a
small inductive describing what the user-visible outcome of that branch is,
and the sqlite reads become functions over an `Except` value describing the
outcome of the underlying read (success with a row list, or a raised
exception).  The definitions follow the source code function by function;
the theorems below settle the specification claims against them.
-/

/-- One row of the `current` table, as selected by `load_current_weather`:
`SELECT city, datetime, temp_c, humidity, wind_kph, wind_dir, precip_mm,
aqi, condition, created_at FROM current`.  Metric columns are modelled as
rationals, `created_at` (after `pd.to_datetime`) as an integer timestamp. -/
structure CurrentRow where
  city : String
  datetime : String
  temp_c : ℚ
  humidity : ℚ
  wind_kph : ℚ
  wind_dir : String
  precip_mm : ℚ
  aqi : ℚ
  condition : String
  created_at : Int
deriving DecidableEq

/-- One row of the `forecast` table, as selected by `load_forecast_data`. -/
structure ForecastRow where
  city : String
  datetime : Int
  temp_c : ℚ
  humidity : ℚ
  wind_kph : ℚ
  wind_dir : String
  precip_mm : ℚ
  aqi : ℚ
  condition : String
deriving DecidableEq

/-- One row of the `meteostat` table, as selected by `load_meteostat_data`. -/
structure MeteostatRow where
  date : Int
  city : String
  temperature : ℚ
  precipitation : ℚ
  snow : ℚ
  wind_dir : String
  wind_speed : ℚ
  humidity : ℚ
  cloud_cover : ℚ
  sunshine_duration : ℚ
deriving DecidableEq

/-- The hardcoded fallback returned by `get_available_cities` when no city
is found in any database (the literal list from the source, in source
order). -/
def fallbackCities : List String :=
  ["Nairobi", "Sydney", "New York", "London"]

/-- `get_available_cities`: the union of the distinct `city` columns of the
three databases is accumulated into a Python set (here a `Finset`); the
function returns `sorted(list(cities))` when the set is non-empty and the
fallback list otherwise.  A failed per-database read contributes nothing to
the set (its `except` branch only emits a warning), so each argument is the
set of cities its database contributed. -/
def get_available_cities (cur fore met : Finset String) : List String :=
  let cities := cur ∪ fore ∪ met
  if cities.Nonempty then cities.sort (· ≤ ·) else fallbackCities

/-- The ordering `sort_values('created_at')` sorts `current` rows by. -/
def createdAtLe (a b : CurrentRow) : Prop :=
  a.created_at ≤ b.created_at

instance : DecidableRel createdAtLe :=
  fun a b => Int.decLe a.created_at b.created_at

instance : IsTotal CurrentRow createdAtLe :=
  ⟨fun a b => Int.le_total a.created_at b.created_at⟩

instance : IsTrans CurrentRow createdAtLe :=
  ⟨fun _ _ _ h1 h2 => le_trans h1 h2⟩

/-- `df.sort_values('created_at')`: an ascending sort of the rows by
`created_at` (a deterministic stable sort stands in for the pandas sort;
every theorem below that speaks about tie-breaking does so relative to the
row order this sort retains, exactly as `groupby(...).tail(1)` acts on the
row order retained by `sort_values`). -/
def sort_values (df : List CurrentRow) : List CurrentRow :=
  List.insertionSort createdAtLe df

/-- `df.groupby('city').tail(1)` on an already-sorted frame: a row is kept
exactly when no later row of the frame has the same `city`, so the last row
of each city group survives, in frame order. -/
def keepLastPerCity : List CurrentRow → List CurrentRow
  | [] => []
  | r :: rest =>
      if rest.any (fun x => x.city == r.city) then keepLastPerCity rest
      else r :: keepLastPerCity rest

/-- The data-shaping step of `load_current_weather`:
`df.sort_values('created_at').groupby('city').tail(1)`. -/
def selectLatest (df : List CurrentRow) : List CurrentRow :=
  keepLastPerCity (sort_values df)

/-- Result of one adapter-level loader: the returned rows together with the
message shown by `st.error` when the underlying read raised (the `except`
branch); `none` means no error banner was emitted. -/
structure LoadResult (α : Type) where
  rows : List α
  errorNotice : Option String
deriving DecidableEq

/-- `load_current_weather`: the whole body sits in one `try`.  On a
successful read the latest row per city is selected and returned; on any
raised exception the handler shows a non-fatal `st.error` banner and
returns an empty frame.  The `Except` argument is the outcome of the
sqlite/pandas read. -/
def load_current_weather (read : Except String (List CurrentRow)) :
    LoadResult CurrentRow :=
  match read with
  | .ok df => { rows := selectLatest df, errorNotice := none }
  | .error e => { rows := [], errorNotice := some ("Error loading current weather: " ++ e) }

/-- `load_forecast_data`: returns the ordered rows unchanged on success,
and an empty frame plus a non-fatal `st.error` banner on a raised read. -/
def load_forecast_data (read : Except String (List ForecastRow)) :
    LoadResult ForecastRow :=
  match read with
  | .ok df => { rows := df, errorNotice := none }
  | .error e => { rows := [], errorNotice := some ("Error loading forecast data: " ++ e) }

/-- `load_meteostat_data`: returns the ordered rows unchanged on success,
and an empty frame plus a non-fatal `st.error` banner on a raised read. -/
def load_meteostat_data (read : Except String (List MeteostatRow)) :
    LoadResult MeteostatRow :=
  match read with
  | .ok df => { rows := df, errorNotice := none }
  | .error e => { rows := [], errorNotice := some ("Error loading historical data: " ++ e) }

/-- The five radar values computed for one city inside
`create_comparison_chart`: `[temp_c * 2, humidity, wind_kph * 2,
precip_mm * 10, aqi]`, with no clamping. -/
def radarValues (r : CurrentRow) : List ℚ :=
  [r.temp_c * 2, r.humidity, r.wind_kph * 2, r.precip_mm * 10, r.aqi]

/-- `create_comparison_chart`: takes `.iloc[0]` of each city-filtered frame
and scales it.  `.iloc[0]` on an empty frame raises `IndexError`, modelled
by `none`; `some` carries the two scaled vectors handed to the radar
chart. -/
def create_comparison_chart (city1 city2 : String) (current_df : List CurrentRow) :
    Option (List ℚ × List ℚ) :=
  match (current_df.filter (fun r => r.city == city1)).head?,
        (current_df.filter (fun r => r.city == city2)).head? with
  | some d1, some d2 => some (radarValues d1, radarValues d2)
  | _, _ => none

/-- User-visible outcome of the Current Weather tab: `noData` is the
"No current weather data available" warning, `rendered` carries the two
per-city cards (`none` standing for the "No current data for ..." warning)
and the two radar vectors, and `raised` is an uncaught exception escaping
the tab. -/
inductive Tab1Render
  | noData
  | rendered (card1 card2 : Option CurrentRow) (radar1 radar2 : List ℚ)
  | raised
deriving DecidableEq

/-- TAB 1 of `main`: when `current_df` is non-empty each city card is shown
from the head of its city-filtered frame (or a warning when that frame is
empty), and then `create_comparison_chart` is called unconditionally; an
`IndexError` inside it is caught by nothing in `main`. -/
def renderTab1 (city1 city2 : String) (current_df : List CurrentRow) : Tab1Render :=
  if current_df.isEmpty then .noData
  else
    match create_comparison_chart city1 city2 current_df with
    | some (v1, v2) =>
        .rendered ((current_df.filter (fun r => r.city == city1)).head?)
          ((current_df.filter (fun r => r.city == city2)).head?) v1 v2
    | none => .raised

/-- User-visible outcome of the Forecast Comparison tab: `noData` is the
"No forecast data available" warning, `insufficient` the "Insufficient
forecast data for comparison" warning, and `rendered` carries the two raw
city-filtered sequences handed to the charts. -/
inductive Tab2Render
  | noData
  | insufficient
  | rendered (forecast_city1 forecast_city2 : List ForecastRow)
deriving DecidableEq

/-- TAB 2 of `main`: filter the forecast frame by each selected city and
chart both raw sequences only when both are non-empty. -/
def renderTab2 (city1 city2 : String) (forecast_df : List ForecastRow) : Tab2Render :=
  if forecast_df.isEmpty then .noData
  else
    let forecast_city1 := forecast_df.filter (fun r => r.city == city1)
    let forecast_city2 := forecast_df.filter (fun r => r.city == city2)
    if !forecast_city1.isEmpty && !forecast_city2.isEmpty then
      .rendered forecast_city1 forecast_city2
    else .insufficient

/-- Pandas `Series.mean()`: sum divided by length. -/
def seriesMean (l : List ℚ) : ℚ :=
  l.sum / l.length

/-- Pandas `Series.max()` (the callers below only apply it to non-empty
series; the empty case, NaN in pandas, is given an arbitrary value). -/
def seriesMax : List ℚ → ℚ
  | [] => 0
  | x :: xs => xs.foldl max x

/-- Pandas `Series.min()` (the callers below only apply it to non-empty
series; the empty case, NaN in pandas, is given an arbitrary value). -/
def seriesMin : List ℚ → ℚ
  | [] => 0
  | x :: xs => xs.foldl min x

/-- The numbers shown by the Historical Analysis metric cards: per-city
yearly aggregates and the signed `city2 - city1` deltas. -/
structure Tab3Stats where
  avg_temp1 : ℚ
  avg_temp2 : ℚ
  delta_temp : ℚ
  total_precip1 : ℚ
  total_precip2 : ℚ
  delta_precip : ℚ
  avg_humidity1 : ℚ
  avg_humidity2 : ℚ
  delta_humidity : ℚ
  avg_wind1 : ℚ
  avg_wind2 : ℚ
  delta_wind : ℚ
deriving DecidableEq

/-- User-visible outcome of the Historical Analysis tab: `noData` is the
"No historical data available" warning, `insufficient` the "Insufficient
historical data for comparison" warning, and `rendered` carries the metric
cards plus the two city-filtered frames used by the trend charts. -/
inductive Tab3Render
  | noData
  | insufficient
  | rendered (stats : Tab3Stats) (hist_city1 hist_city2 : List MeteostatRow)
deriving DecidableEq

/-- TAB 3 of `main`: both city-filtered historical frames must be non-empty
for the comparison to be computed at all; the deltas shown by `st.metric`
are always the second city's aggregate minus the first city's. -/
def renderTab3 (city1 city2 : String) (historical_df : List MeteostatRow) : Tab3Render :=
  if historical_df.isEmpty then .noData
  else
    let hist_city1 := historical_df.filter (fun r => r.city == city1)
    let hist_city2 := historical_df.filter (fun r => r.city == city2)
    if !hist_city1.isEmpty && !hist_city2.isEmpty then
      let avg_temp1 := seriesMean (hist_city1.map (·.temperature))
      let avg_temp2 := seriesMean (hist_city2.map (·.temperature))
      let avg_precip1 := (hist_city1.map (·.precipitation)).sum
      let avg_precip2 := (hist_city2.map (·.precipitation)).sum
      let avg_humidity1 := seriesMean (hist_city1.map (·.humidity))
      let avg_humidity2 := seriesMean (hist_city2.map (·.humidity))
      let avg_wind1 := seriesMean (hist_city1.map (·.wind_speed))
      let avg_wind2 := seriesMean (hist_city2.map (·.wind_speed))
      .rendered
        { avg_temp1 := avg_temp1
          avg_temp2 := avg_temp2
          delta_temp := avg_temp2 - avg_temp1
          total_precip1 := avg_precip1
          total_precip2 := avg_precip2
          delta_precip := avg_precip2 - avg_precip1
          avg_humidity1 := avg_humidity1
          avg_humidity2 := avg_humidity2
          delta_humidity := avg_humidity2 - avg_humidity1
          avg_wind1 := avg_wind1
          avg_wind2 := avg_wind2
          delta_wind := avg_wind2 - avg_wind1 }
        hist_city1 hist_city2
    else .insufficient

/-- The delta of the temperature cards, when the Historical Analysis tab
rendered them. -/
def tab3DeltaTemp : Tab3Render → Option ℚ
  | .rendered stats _ _ => some stats.delta_temp
  | _ => none

/-- One row of the Historical Statistics Summary table of the Detailed
Metrics tab. -/
structure SummaryRow where
  city : String
  avg_temperature : ℚ
  max_temperature : ℚ
  min_temperature : ℚ
  total_precipitation : ℚ
  avg_humidity : ℚ
  avg_wind_speed : ℚ
deriving DecidableEq

/-- The summary row built for one city in TAB 4 from its city-filtered
historical frame. -/
def mkSummaryRow (historical_df : List MeteostatRow) (c : String) : SummaryRow :=
  let city_hist := historical_df.filter (fun r => r.city == c)
  { city := c
    avg_temperature := seriesMean (city_hist.map (·.temperature))
    max_temperature := seriesMax (city_hist.map (·.temperature))
    min_temperature := seriesMin (city_hist.map (·.temperature))
    total_precipitation := (city_hist.map (·.precipitation)).sum
    avg_humidity := seriesMean (city_hist.map (·.humidity))
    avg_wind_speed := seriesMean (city_hist.map (·.wind_speed)) }

/-- The `summary_data` list of TAB 4: the loop over `[city1, city2]`
appends a summary row for a city exactly when that city's filtered frame is
non-empty, each city judged on its own. -/
def summaryData (historical_df : List MeteostatRow) (city1 city2 : String) :
    List SummaryRow :=
  (([city1, city2].filter
      (fun c => !(historical_df.filter (fun r => r.city == c)).isEmpty)).map
    (mkSummaryRow historical_df))

/-- Outcome of the Historical Statistics Summary table of TAB 4: the table
is drawn only when `historical_df` is non-empty and `summary_data` is
non-empty (`if summary_data:`). -/
inductive Tab4Summary
  | notRendered
  | rendered (table : List SummaryRow)
deriving DecidableEq

/-- The Historical Statistics Summary section of TAB 4. -/
def renderTab4Summary (city1 city2 : String) (historical_df : List MeteostatRow) :
    Tab4Summary :=
  if historical_df.isEmpty then .notRendered
  else if (summaryData historical_df city1 city2).isEmpty then .notRendered
  else .rendered (summaryData historical_df city1 city2)

/-- `available_cities_for_city2`: the list comprehension
`[city for city in CITIES if city != city1]`. -/
def availableCitiesForCity2 (cities : List String) (city1 : String) : List String :=
  cities.filter (fun c => c != city1)

/-- Outcome of the City 2 selector: `rejected` is the sidebar error plus
early `return` taken when the candidate list is empty; otherwise the
selectbox defaults to the first candidate (`index=0`). -/
inductive City2Selection
  | rejected
  | selected (city2 : String)
deriving DecidableEq

/-- The second-city selection step of `main`. -/
def selectCity2 (cities : List String) (city1 : String) : City2Selection :=
  match availableCitiesForCity2 cities city1 with
  | [] => .rejected
  | c :: _ => .selected c

/-- The example reading used by the radar-scaling acceptance test of the
specification. -/
def exampleReading : CurrentRow :=
  { city := "Nairobi", datetime := "2025-01-01 12:00", temp_c := 20, humidity := 50,
    wind_kph := 10, wind_dir := "NE", precip_mm := 2, aqi := 50,
    condition := "Sunny", created_at := 100 }

/-- A reading whose scaled temperature exceeds the fixed display window,
exercising the absence of clamping. -/
def hotReading : CurrentRow :=
  { city := "Sydney", datetime := "2025-01-01 12:00", temp_c := 60, humidity := 50,
    wind_kph := 10, wind_dir := "SE", precip_mm := 2, aqi := 50,
    condition := "Sunny", created_at := 100 }

/-- C2: for every latest reading the radar-scaled vector is exactly the
five metrics multiplied componentwise by the constants 2, 1, 2, 10, 1;
the specification's example reading maps exactly to 40, 50, 20, 20, 50;
and no clamping is applied by the engine, so a value beyond the fixed 0-100
display window is passed through unchanged. -/
theorem radar_scaling_exact (r : CurrentRow) :
    radarValues r =
      List.zipWith (fun k v => k * v) [2, 1, 2, 10, 1]
        [r.temp_c, r.humidity, r.wind_kph, r.precip_mm, r.aqi] ∧
    radarValues exampleReading = [40, 50, 20, 20, 50] ∧
    ∃ v ∈ radarValues hotReading, (100 : ℚ) < v := by
  refine ⟨?_, ?_, ?_⟩
  · simp [radarValues, mul_comm]
  · norm_num [radarValues, exampleReading]
  · exact ⟨120, by norm_num [radarValues, hotReading], by norm_num⟩

/-- C9: each adapter-level loader catches any raised read, surfaces it only
as a non-fatal notice and returns an empty sequence; a successful read of
an absent-or-empty source likewise yields the empty sequence with no
notice, and a successful read passes the rows on (for the current table,
through the latest-per-city selection). -/
theorem adapter_error_policy (e : String) (dfF : List ForecastRow)
    (dfM : List MeteostatRow) :
    (load_current_weather (.error e)).rows = [] ∧
    (load_current_weather (.error e)).errorNotice ≠ none ∧
    (load_forecast_data (.error e)).rows = [] ∧
    (load_forecast_data (.error e)).errorNotice ≠ none ∧
    (load_meteostat_data (.error e)).rows = [] ∧
    (load_meteostat_data (.error e)).errorNotice ≠ none ∧
    (load_current_weather (.ok [])).rows = [] ∧
    (load_current_weather (.ok [])).errorNotice = none ∧
    (load_forecast_data (.ok dfF)).rows = dfF ∧
    (load_forecast_data (.ok dfF)).errorNotice = none ∧
    (load_meteostat_data (.ok dfM)).rows = dfM ∧
    (load_meteostat_data (.ok dfM)).errorNotice = none := by
  simp [load_current_weather, load_forecast_data, load_meteostat_data,
    selectLatest, sort_values, keepLastPerCity]

/-- The single current-table row of the failing input for claim C1: only
London has a current reading. -/
def londonCurrentRow : CurrentRow :=
  { city := "London", datetime := "2025-01-01 12:00", temp_c := 10, humidity := 80,
    wind_kph := 15, wind_dir := "NW", precip_mm := 1, aqi := 30,
    condition := "Cloudy", created_at := 100 }

/-- C1 (code bug): with a non-empty current dataset in which the selected
city Nairobi has zero rows, the Current Weather tab shows the per-city
warning but still calls `create_comparison_chart` unconditionally, whose
`.iloc[0]` on Nairobi's empty frame raises an `IndexError` that nothing in
`main` catches, instead of skipping the comparison as the claim states. -/
theorem current_missing_city_raises :
    ([londonCurrentRow].filter (fun r => r.city == "Nairobi") = [] ∧
      [londonCurrentRow] ≠ []) ∧
    create_comparison_chart "Nairobi" "London" [londonCurrentRow] = none ∧
    renderTab1 "Nairobi" "London" [londonCurrentRow] = Tab1Render.raised := by
  decide

/-- Evaluating the registry on three empty sources. -/
lemma get_available_cities_of_empty :
    get_available_cities ∅ ∅ ∅ = fallbackCities := by
  simp [get_available_cities]

/-- The registry output never contains a duplicate: the sorted branch sorts
a finite set, and the fallback list has four distinct entries. -/
lemma get_available_cities_nodup (cur fore met : Finset String) :
    (get_available_cities cur fore met).Nodup := by
  unfold get_available_cities
  by_cases h : (cur ∪ fore ∪ met).Nonempty
  · rw [if_pos h]
    exact Finset.sort_nodup _ _
  · rw [if_neg h]
    decide

/-- C4 counterexample: when the union of the three sources is empty the
registry returns the fallback literal, and that list is not sorted
lexicographically ascending (London belongs first, and New York precedes
Sydney). -/
theorem registry_fallback_not_sorted :
    get_available_cities ∅ ∅ ∅ = fallbackCities ∧
    ¬ List.Sorted (· ≤ ·) (get_available_cities ∅ ∅ ∅) := by
  refine ⟨get_available_cities_of_empty, ?_⟩
  rw [get_available_cities_of_empty]
  simp [fallbackCities, List.sorted_cons, String.le_iff_toList_le]
  decide

/-- C4 (amended): every registry list is deduplicated; whenever the union
of the distinct city values of the three sources is non-empty the returned
list is that union sorted lexicographically ascending, and when the union
is empty the returned list equals the fixed four-item fallback list, which
is returned in its literal (unsorted) order. -/
theorem registry_sorted_dedup_amended (cur fore met : Finset String) :
    (get_available_cities cur fore met).Nodup ∧
    ((cur ∪ fore ∪ met).Nonempty →
      List.Sorted (· ≤ ·) (get_available_cities cur fore met) ∧
      ∀ c, c ∈ get_available_cities cur fore met ↔ c ∈ cur ∪ fore ∪ met) ∧
    (¬ (cur ∪ fore ∪ met).Nonempty →
      get_available_cities cur fore met = fallbackCities) := by
  refine ⟨get_available_cities_nodup cur fore met, ?_, ?_⟩
  · intro h
    constructor
    · unfold get_available_cities
      rw [if_pos h]
      exact Finset.sort_sorted _ _
    · intro c
      unfold get_available_cities
      rw [if_pos h]
      exact Finset.mem_sort _
  · intro h
    unfold get_available_cities
    rw [if_neg h]

/-- Witness for C4's amended claim: a concrete non-empty union gives a
sorted registry list, discharged by applying the amended theorem. -/
theorem registry_sorted_dedup_amended_witness :
    (({"B"} : Finset String) ∪ {"A"} ∪ ∅).Nonempty ∧
    List.Sorted (· ≤ ·) (get_available_cities {"B"} {"A"} ∅) := by
  have h : (({"B"} : Finset String) ∪ {"A"} ∪ ∅).Nonempty := ⟨"A", by simp⟩
  exact ⟨h, ((registry_sorted_dedup_amended {"B"} {"A"} ∅).2.1 h).1⟩

/-- Removing one value from a duplicate-free list of length at least two
leaves at least one element. -/
lemma filter_ne_nonempty {l : List String} {x : String} (hnd : l.Nodup)
    (hlen : 2 ≤ l.length) : l.filter (fun c => c != x) ≠ [] := by
  match l, hnd, hlen with
  | a :: b :: t, hnd, _ =>
    intro hnil
    have hall := List.filter_eq_nil_iff.mp hnil
    have ha : a = x := by
      have := hall a (by simp)
      simpa [bne_iff_ne] using this
    have hb : b = x := by
      have := hall b (by simp)
      simpa [bne_iff_ne] using this
    have : a ≠ b := by
      have := List.nodup_cons.mp hnd
      simp at this
      exact fun hab => this.1.1 hab
    exact this (ha.trans hb.symm)

/-- C8: the second city's candidate set is exactly the registry list minus
the first city; it is non-empty whenever the registry list has at least two
entries; an empty candidate set is rejected through the special
error-and-return path; and any selected second city is a registry city
different from the first. -/
theorem city2_candidate_set (cur fore met : Finset String) (city1 : String) :
    (∀ c, c ∈ availableCitiesForCity2 (get_available_cities cur fore met) city1 ↔
      (c ∈ get_available_cities cur fore met ∧ c ≠ city1)) ∧
    (2 ≤ (get_available_cities cur fore met).length →
      availableCitiesForCity2 (get_available_cities cur fore met) city1 ≠ []) ∧
    (availableCitiesForCity2 (get_available_cities cur fore met) city1 = [] →
      selectCity2 (get_available_cities cur fore met) city1 = .rejected) ∧
    (∀ c2, selectCity2 (get_available_cities cur fore met) city1 = .selected c2 →
      c2 ∈ get_available_cities cur fore met ∧ c2 ≠ city1) := by
  refine ⟨?_, ?_, ?_, ?_⟩
  · intro c
    simp [availableCitiesForCity2, List.mem_filter, bne_iff_ne]
  · intro hlen
    exact filter_ne_nonempty (get_available_cities_nodup cur fore met) hlen
  · intro hnil
    unfold selectCity2
    rw [hnil]
  · intro c2 hsel
    unfold selectCity2 at hsel
    rcases heq : availableCitiesForCity2 (get_available_cities cur fore met) city1 with
      _ | ⟨c, t⟩
    · rw [heq] at hsel
      simp at hsel
    · rw [heq] at hsel
      simp at hsel
      have hmem : c ∈ availableCitiesForCity2 (get_available_cities cur fore met) city1 := by
        rw [heq]
        exact List.mem_cons_self c t
      have hf := List.mem_filter.mp hmem
      subst hsel
      exact ⟨hf.1, by simpa [bne_iff_ne] using hf.2⟩

/-- Witness for C8: on the fallback registry list (four cities) the
candidate set for Nairobi as first city is non-empty, discharged by
applying the candidate-set theorem. -/
theorem city2_candidate_set_witness :
    2 ≤ (get_available_cities ∅ ∅ ∅).length ∧
    availableCitiesForCity2 (get_available_cities ∅ ∅ ∅) "Nairobi" ≠ [] := by
  have h2 : 2 ≤ (get_available_cities ∅ ∅ ∅).length := by
    rw [get_available_cities_of_empty]
    decide
  exact ⟨h2, (city2_candidate_set ∅ ∅ ∅ "Nairobi").2.1 h2⟩

/-- Filtering the kept-last-per-group rows down to one city yields exactly
the last row of that city in the frame order, when the city has one. -/
lemma keepLastPerCity_filter (c : String) :
    ∀ df : List CurrentRow,
      (keepLastPerCity df).filter (fun x => x.city == c) =
        ((df.filter (fun x => x.city == c)).getLast?).toList
  | [] => rfl
  | r :: rest => by
      have ih := keepLastPerCity_filter c rest
      by_cases hc : r.city = c
      · by_cases hany : rest.any (fun x => x.city == r.city) = true
        · have hne : rest.filter (fun x => x.city == c) ≠ [] := by
            rcases List.any_eq_true.mp hany with ⟨x, hx, hpx⟩
            intro hnil
            have hnotp := List.filter_eq_nil_iff.mp hnil x hx
            rw [hc] at hpx
            exact hnotp hpx
          obtain ⟨b, l, hbl⟩ := List.exists_cons_of_ne_nil hne
          simp only [keepLastPerCity, if_pos hany, ih]
          rw [List.filter_cons_of_pos (by simp [hc]), hbl, List.getLast?_cons_cons]
        · have hnil : rest.filter (fun x => x.city == c) = [] := by
            rw [List.filter_eq_nil_iff]
            intro a ha hpa
            refine hany (List.any_eq_true.mpr ⟨a, ha, ?_⟩)
            rw [hc]
            exact hpa
          simp only [keepLastPerCity, if_neg hany]
          rw [List.filter_cons_of_pos (by simp [hc]), ih, hnil,
            List.filter_cons_of_pos (by simp [hc]), hnil]
          rfl
      · by_cases hany : rest.any (fun x => x.city == r.city) = true
        · simp only [keepLastPerCity, if_pos hany, ih]
          rw [List.filter_cons_of_neg (by simp [hc])]
        · simp only [keepLastPerCity, if_neg hany]
          rw [List.filter_cons_of_neg (by simp [hc]),
            List.filter_cons_of_neg (by simp [hc]), ih]

/-- In a frame sorted ascending by `created_at`, every row's timestamp is
at most the last row's. -/
lemma sorted_le_getLastSome :
    ∀ (l : List CurrentRow) (r : CurrentRow), List.Sorted createdAtLe l →
      l.getLast? = some r → ∀ x ∈ l, x.created_at ≤ r.created_at
  | [], _, _, hlast, _, hx => by simp at hlast
  | [a], r, _, hlast, x, hx => by
      simp at hlast hx
      rw [hx, ← hlast]
  | a :: b :: t, r, hs, hlast, x, hx => by
      rw [List.getLast?_cons_cons] at hlast
      have hcons := List.sorted_cons.mp hs
      rcases List.mem_cons.mp hx with rfl | hx2
      · exact hcons.1 r (List.mem_of_getLast?_eq_some hlast)
      · exact sorted_le_getLastSome (b :: t) r hcons.2 hlast x hx2

/-- C3: for every city with at least one current row, the
latest-per-city selection keeps exactly one row of that city; that row is a
row of the dataset attaining the maximal `created_at` of the city, and it
is precisely the last row of the city in the ordering retained by the
ascending `created_at` sort, which is the tie-break when several rows share
the maximal timestamp. -/
theorem latest_reading_selection (df : List CurrentRow) (c : String)
    (h : df.filter (fun x => x.city == c) ≠ []) :
    ∃ r : CurrentRow,
      (selectLatest df).filter (fun x => x.city == c) = [r] ∧
      r ∈ df ∧ r.city = c ∧
      (∀ x ∈ df, x.city = c → x.created_at ≤ r.created_at) ∧
      ((sort_values df).filter (fun x => x.city == c)).getLast? = some r := by
  have hperm : List.Perm ((sort_values df).filter (fun x => x.city == c))
      (df.filter (fun x => x.city == c)) :=
    (List.perm_insertionSort createdAtLe df).filter _
  have hne : (sort_values df).filter (fun x => x.city == c) ≠ [] := by
    intro h0
    rw [h0] at hperm
    exact h hperm.nil_eq.symm
  obtain ⟨r, hlast⟩ :
      ∃ r, ((sort_values df).filter (fun x => x.city == c)).getLast? = some r := by
    rcases List.eq_nil_or_concat ((sort_values df).filter (fun x => x.city == c)) with
      h0 | ⟨L, b, hLb⟩
    · exact absurd h0 hne
    · refine ⟨b, ?_⟩
      rw [hLb, List.concat_eq_append]
      exact List.getLast?_concat L
  have hsorted : List.Sorted createdAtLe ((sort_values df).filter (fun x => x.city == c)) :=
    List.Pairwise.filter _ (List.sorted_insertionSort createdAtLe df)
  have hrmem : r ∈ (sort_values df).filter (fun x => x.city == c) :=
    List.mem_of_getLast?_eq_some hlast
  refine ⟨r, ?_, ?_, ?_, ?_, hlast⟩
  · unfold selectLatest
    rw [keepLastPerCity_filter, hlast]
    rfl
  · have hrf := hperm.mem_iff.mp hrmem
    exact (List.mem_filter.mp hrf).1
  · have hp := (List.mem_filter.mp (hperm.mem_iff.mp hrmem)).2
    simpa using hp
  · intro x hx hxc
    have hxf : x ∈ df.filter (fun x => x.city == c) :=
      List.mem_filter.mpr ⟨hx, by simp [hxc]⟩
    exact sorted_le_getLastSome _ r hsorted hlast x (hperm.mem_iff.mpr hxf)

/-- First of two city-A rows sharing the maximal timestamp. -/
def tieRowFirst : CurrentRow :=
  { city := "A", datetime := "2025-01-01 11:00", temp_c := 18, humidity := 60,
    wind_kph := 8, wind_dir := "N", precip_mm := 0, aqi := 40,
    condition := "first", created_at := 5 }

/-- Second of two city-A rows sharing the maximal timestamp. -/
def tieRowSecond : CurrentRow :=
  { city := "A", datetime := "2025-01-01 12:00", temp_c := 19, humidity := 61,
    wind_kph := 9, wind_dir := "N", precip_mm := 0, aqi := 41,
    condition := "second", created_at := 5 }

/-- A current frame with an earlier city-A row and two tied latest rows. -/
def tieDf : List CurrentRow :=
  [{ city := "A", datetime := "2025-01-01 10:00", temp_c := 17, humidity := 59,
     wind_kph := 7, wind_dir := "N", precip_mm := 0, aqi := 39,
     condition := "earliest", created_at := 3 },
   tieRowFirst, tieRowSecond]

/-- Witness for C3 on a concrete frame with a timestamp tie: the hypothesis
holds, the selection theorem applies, and the retained row is concretely
the later of the two tied rows. -/
theorem latest_reading_selection_witness :
    (tieDf.filter (fun x => x.city == "A") ≠ []) ∧
    (∃ r : CurrentRow,
      (selectLatest tieDf).filter (fun x => x.city == "A") = [r] ∧
      r ∈ tieDf ∧ r.city = "A" ∧
      (∀ x ∈ tieDf, x.city = "A" → x.created_at ≤ r.created_at) ∧
      ((sort_values tieDf).filter (fun x => x.city == "A")).getLast? = some r) ∧
    (selectLatest tieDf).filter (fun x => x.city == "A") = [tieRowSecond] :=
  ⟨by decide, latest_reading_selection tieDf "A" (by decide), by decide⟩

/-- A list is non-empty exactly when `isEmpty` is `false`. -/
lemma isEmpty_false_of_ne_nil {α : Type} {l : List α} (h : l ≠ []) :
    l.isEmpty = false := by
  rcases l with _ | ⟨a, t⟩
  · exact absurd rfl h
  · rfl

/-- C6: whenever either selected city has no historical rows (including the
case of an entirely empty historical dataset), the Historical Analysis tab
degrades to one of its two informational notices, never renders the
comparison, and reports no summary number at all — in particular no NaN and
no zero stands in for the missing summary. -/
theorem historical_skip_on_empty (df : List MeteostatRow) (c1 c2 : String)
    (h : df.filter (fun r => r.city == c1) = [] ∨
      df.filter (fun r => r.city == c2) = []) :
    (renderTab3 c1 c2 df = .noData ∨ renderTab3 c1 c2 df = .insufficient) ∧
    (∀ s u v, renderTab3 c1 c2 df ≠ .rendered s u v) ∧
    tab3DeltaTemp (renderTab3 c1 c2 df) = none := by
  have key : renderTab3 c1 c2 df = .noData ∨ renderTab3 c1 c2 df = .insufficient := by
    rcases df with _ | ⟨d, ds⟩
    · exact Or.inl rfl
    · right
      have hcond : (!((d :: ds).filter (fun r => r.city == c1)).isEmpty &&
          !((d :: ds).filter (fun r => r.city == c2)).isEmpty) = false := by
        rcases h with h | h
        · rw [h]
          rfl
        · rw [h]
          simp
      simp only [renderTab3, List.isEmpty_cons, hcond]
      simp
  refine ⟨key, ?_, ?_⟩
  · intro s u v heq
    rcases key with k | k <;> rw [k] at heq <;> exact Tab3Render.noConfusion heq
  · rcases key with k | k <;> rw [k] <;> rfl

/-- A historical frame containing rows for city B only. -/
def histBOnlyDf : List MeteostatRow :=
  [{ date := 1, city := "B", temperature := 15, precipitation := 2, snow := 0,
     wind_dir := "N", wind_speed := 10, humidity := 70, cloud_cover := 10,
     sunshine_duration := 5 },
   { date := 2, city := "B", temperature := 25, precipitation := 0, snow := 0,
     wind_dir := "N", wind_speed := 12, humidity := 65, cloud_cover := 20,
     sunshine_duration := 6 }]

/-- Witness for C6: on a concrete frame where city A has no historical
rows, the skip theorem applies and the tab shows a notice. -/
theorem historical_skip_on_empty_witness :
    (histBOnlyDf.filter (fun r => r.city == "A") = [] ∨
      histBOnlyDf.filter (fun r => r.city == "B") = []) ∧
    ((renderTab3 "A" "B" histBOnlyDf = .noData ∨
        renderTab3 "A" "B" histBOnlyDf = .insufficient) ∧
      (∀ s u v, renderTab3 "A" "B" histBOnlyDf ≠ .rendered s u v) ∧
      tab3DeltaTemp (renderTab3 "A" "B" histBOnlyDf) = none) :=
  ⟨Or.inl (by decide),
    historical_skip_on_empty histBOnlyDf "A" "B" (Or.inl (by decide))⟩

/-- C7: the forecast comparison is both-or-nothing — if either selected
city's filtered forecast sequence is empty the comparison is skipped with a
notice and nothing is rendered; when both are non-empty, the tab renders
exactly the two raw city-filtered sequences: each is an order-preserving
subsequence of the loaded frame containing precisely its city's rows, with
no resampling and no gap-filling. -/
theorem forecast_both_or_nothing (df : List ForecastRow) (c1 c2 : String) :
    ((df.filter (fun r => r.city == c1) = [] ∨
        df.filter (fun r => r.city == c2) = []) →
      ∀ s1 s2, renderTab2 c1 c2 df ≠ .rendered s1 s2) ∧
    (df.filter (fun r => r.city == c1) ≠ [] →
      df.filter (fun r => r.city == c2) ≠ [] →
      renderTab2 c1 c2 df = .rendered (df.filter (fun r => r.city == c1))
        (df.filter (fun r => r.city == c2)) ∧
      (df.filter (fun r => r.city == c1)).Sublist df ∧
      (df.filter (fun r => r.city == c2)).Sublist df ∧
      (∀ r ∈ df.filter (fun r => r.city == c1), r.city = c1) ∧
      (∀ r ∈ df, r.city = c1 → r ∈ df.filter (fun r => r.city == c1)) ∧
      (∀ r ∈ df.filter (fun r => r.city == c2), r.city = c2) ∧
      (∀ r ∈ df, r.city = c2 → r ∈ df.filter (fun r => r.city == c2))) := by
  constructor
  · intro h s1 s2 heq
    rcases df with _ | ⟨d, ds⟩
    · exact Tab2Render.noConfusion (heq.symm.trans rfl)
    · have hcond : (!((d :: ds).filter (fun r => r.city == c1)).isEmpty &&
          !((d :: ds).filter (fun r => r.city == c2)).isEmpty) = false := by
        rcases h with h | h
        · rw [h]
          rfl
        · rw [h]
          simp
      rw [show renderTab2 c1 c2 (d :: ds) = .insufficient by
        simp only [renderTab2, List.isEmpty_cons, hcond]
        simp] at heq
      exact Tab2Render.noConfusion heq
  · intro h1 h2
    have hdf : df ≠ [] := by
      intro h0
      rw [h0] at h1
      exact h1 rfl
    refine ⟨?_, List.filter_sublist df, List.filter_sublist df, ?_, ?_, ?_, ?_⟩
    · have hcond : (!(df.filter (fun r => r.city == c1)).isEmpty &&
          !(df.filter (fun r => r.city == c2)).isEmpty) = true := by
        rw [isEmpty_false_of_ne_nil h1, isEmpty_false_of_ne_nil h2]
        rfl
      simp only [renderTab2, isEmpty_false_of_ne_nil hdf, hcond]
      simp
    · intro r hr
      simpa using (List.mem_filter.mp hr).2
    · intro r hr hc
      exact List.mem_filter.mpr ⟨hr, by simp [hc]⟩
    · intro r hr
      simpa using (List.mem_filter.mp hr).2
    · intro r hr hc
      exact List.mem_filter.mpr ⟨hr, by simp [hc]⟩

/-- A forecast frame with one row for each of the two selected cities. -/
def exampleForecastDf : List ForecastRow :=
  [{ city := "A", datetime := 1, temp_c := 20, humidity := 50, wind_kph := 10,
     wind_dir := "N", precip_mm := 0, aqi := 40, condition := "Sunny" },
   { city := "B", datetime := 1, temp_c := 22, humidity := 55, wind_kph := 12,
     wind_dir := "S", precip_mm := 1, aqi := 45, condition := "Rain" }]

/-- Witness for C7: with both filtered forecast sequences non-empty the
both-or-nothing theorem applies and the tab renders the two raw filtered
sequences. -/
theorem forecast_both_or_nothing_witness :
    (exampleForecastDf.filter (fun r => r.city == "A") ≠ []) ∧
    (exampleForecastDf.filter (fun r => r.city == "B") ≠ []) ∧
    renderTab2 "A" "B" exampleForecastDf =
      .rendered (exampleForecastDf.filter (fun r => r.city == "A"))
        (exampleForecastDf.filter (fun r => r.city == "B")) :=
  ⟨by decide, by decide,
    ((forecast_both_or_nothing exampleForecastDf "A" "B").2 (by decide) (by decide)).1⟩

/-- The starting value of a max-fold is a lower bound of the result. -/
lemma foldl_max_init_le : ∀ (xs : List ℚ) (x : ℚ), x ≤ xs.foldl max x
  | [], x => le_refl x
  | y :: ys, x => le_trans (le_max_left x y) (foldl_max_init_le ys (max x y))

/-- Every element of a list is at most the max-fold over it. -/
lemma foldl_max_mem_le : ∀ (xs : List ℚ) (x y : ℚ), y ∈ xs → y ≤ xs.foldl max x
  | y' :: ys, x, y, hy => by
      rcases List.mem_cons.mp hy with rfl | h2
      · exact le_trans (le_max_right x y) (foldl_max_init_le ys (max x y))
      · exact foldl_max_mem_le ys (max x y') y h2

/-- A max-fold returns its starting value or some list element. -/
lemma foldl_max_mem : ∀ (xs : List ℚ) (x : ℚ),
    xs.foldl max x = x ∨ xs.foldl max x ∈ xs
  | [], _ => Or.inl rfl
  | y :: ys, x => by
      rcases foldl_max_mem ys (max x y) with h | h
      · rcases max_choice x y with hxy | hxy
        · left
          rw [List.foldl_cons, h, hxy]
        · right
          rw [List.foldl_cons, h, hxy]
          exact List.mem_cons_self y ys
      · exact Or.inr (List.mem_cons_of_mem y h)

/-- The result of a min-fold is at most its starting value. -/
lemma foldl_min_le_init : ∀ (xs : List ℚ) (x : ℚ), xs.foldl min x ≤ x
  | [], x => le_refl x
  | y :: ys, x => le_trans (foldl_min_le_init ys (min x y)) (min_le_left x y)

/-- The min-fold over a list is at most every element. -/
lemma foldl_min_le_mem : ∀ (xs : List ℚ) (x y : ℚ), y ∈ xs → xs.foldl min x ≤ y
  | y' :: ys, x, y, hy => by
      rcases List.mem_cons.mp hy with rfl | h2
      · exact le_trans (foldl_min_le_init ys (min x y)) (min_le_right x y)
      · exact foldl_min_le_mem ys (min x y') y h2

/-- A min-fold returns its starting value or some list element. -/
lemma foldl_min_mem : ∀ (xs : List ℚ) (x : ℚ),
    xs.foldl min x = x ∨ xs.foldl min x ∈ xs
  | [], _ => Or.inl rfl
  | y :: ys, x => by
      rcases foldl_min_mem ys (min x y) with h | h
      · rcases min_choice x y with hxy | hxy
        · left
          rw [List.foldl_cons, h, hxy]
        · right
          rw [List.foldl_cons, h, hxy]
          exact List.mem_cons_self y ys
      · exact Or.inr (List.mem_cons_of_mem y h)

/-- On a non-empty series, `seriesMax` is an attained upper bound. -/
lemma seriesMax_spec (l : List ℚ) (h : l ≠ []) :
    seriesMax l ∈ l ∧ ∀ y ∈ l, y ≤ seriesMax l := by
  rcases l with _ | ⟨x, xs⟩
  · exact absurd rfl h
  · constructor
    · rcases foldl_max_mem xs x with h0 | h0
      · rw [seriesMax, h0]
        exact List.mem_cons_self x xs
      · exact List.mem_cons_of_mem x h0
    · intro y hy
      rcases List.mem_cons.mp hy with rfl | h2
      · exact foldl_max_init_le xs y
      · exact foldl_max_mem_le xs x y h2

/-- On a non-empty series, `seriesMin` is an attained lower bound. -/
lemma seriesMin_spec (l : List ℚ) (h : l ≠ []) :
    seriesMin l ∈ l ∧ ∀ y ∈ l, seriesMin l ≤ y := by
  rcases l with _ | ⟨x, xs⟩
  · exact absurd rfl h
  · constructor
    · rcases foldl_min_mem xs x with h0 | h0
      · rw [seriesMin, h0]
        exact List.mem_cons_self x xs
      · exact List.mem_cons_of_mem x h0
    · intro y hy
      rcases List.mem_cons.mp hy with rfl | h2
      · exact foldl_min_le_init xs y
      · exact foldl_min_le_mem xs x y h2

/-- When both city-filtered historical frames are non-empty the Historical
Analysis tab renders the metric cards, whose entries coincide with the
summary-row aggregates and whose deltas are second-city minus first-city. -/
lemma renderTab3_rendered (df : List MeteostatRow) (c1 c2 : String)
    (h1 : df.filter (fun r => r.city == c1) ≠ [])
    (h2 : df.filter (fun r => r.city == c2) ≠ []) :
    renderTab3 c1 c2 df = Tab3Render.rendered
      { avg_temp1 := (mkSummaryRow df c1).avg_temperature
        avg_temp2 := (mkSummaryRow df c2).avg_temperature
        delta_temp := (mkSummaryRow df c2).avg_temperature -
          (mkSummaryRow df c1).avg_temperature
        total_precip1 := (mkSummaryRow df c1).total_precipitation
        total_precip2 := (mkSummaryRow df c2).total_precipitation
        delta_precip := (mkSummaryRow df c2).total_precipitation -
          (mkSummaryRow df c1).total_precipitation
        avg_humidity1 := (mkSummaryRow df c1).avg_humidity
        avg_humidity2 := (mkSummaryRow df c2).avg_humidity
        delta_humidity := (mkSummaryRow df c2).avg_humidity -
          (mkSummaryRow df c1).avg_humidity
        avg_wind1 := (mkSummaryRow df c1).avg_wind_speed
        avg_wind2 := (mkSummaryRow df c2).avg_wind_speed
        delta_wind := (mkSummaryRow df c2).avg_wind_speed -
          (mkSummaryRow df c1).avg_wind_speed }
      (df.filter (fun r => r.city == c1)) (df.filter (fun r => r.city == c2)) := by
  have hdf : df ≠ [] := by
    intro h0
    rw [h0] at h1
    exact h1 rfl
  have hcond : (!(df.filter (fun r => r.city == c1)).isEmpty &&
      !(df.filter (fun r => r.city == c2)).isEmpty) = true := by
    rw [isEmpty_false_of_ne_nil h1, isEmpty_false_of_ne_nil h2]
    rfl
  simp only [renderTab3, isEmpty_false_of_ne_nil hdf, hcond]
  simp [mkSummaryRow]

/-- C5: for a selected pair whose city-filtered historical sequences are
both non-empty, the per-city summary row consists exactly of the arithmetic
mean of temperature, the sum of precipitation, the means of humidity and
wind speed, and the attained maximum and minimum of temperature, computed
over precisely the rows whose city equals the target; and the Historical
Analysis cards report, for every metric, the second city's aggregate minus
the first city's as the signed delta. -/
theorem historical_summary_stats (df : List MeteostatRow) (c1 c2 : String)
    (h1 : df.filter (fun r => r.city == c1) ≠ [])
    (h2 : df.filter (fun r => r.city == c2) ≠ []) :
    (∀ r ∈ df.filter (fun r => r.city == c1), r.city = c1) ∧
    (∀ r ∈ df, r.city = c1 → r ∈ df.filter (fun r => r.city == c1)) ∧
    (mkSummaryRow df c1).avg_temperature =
      ((df.filter (fun r => r.city == c1)).map (·.temperature)).sum /
        ((df.filter (fun r => r.city == c1)).map (·.temperature)).length ∧
    (mkSummaryRow df c1).total_precipitation =
      ((df.filter (fun r => r.city == c1)).map (·.precipitation)).sum ∧
    (mkSummaryRow df c1).avg_humidity =
      ((df.filter (fun r => r.city == c1)).map (·.humidity)).sum /
        ((df.filter (fun r => r.city == c1)).map (·.humidity)).length ∧
    (mkSummaryRow df c1).avg_wind_speed =
      ((df.filter (fun r => r.city == c1)).map (·.wind_speed)).sum /
        ((df.filter (fun r => r.city == c1)).map (·.wind_speed)).length ∧
    ((mkSummaryRow df c1).max_temperature ∈
        (df.filter (fun r => r.city == c1)).map (·.temperature) ∧
      ∀ t ∈ (df.filter (fun r => r.city == c1)).map (·.temperature),
        t ≤ (mkSummaryRow df c1).max_temperature) ∧
    ((mkSummaryRow df c1).min_temperature ∈
        (df.filter (fun r => r.city == c1)).map (·.temperature) ∧
      ∀ t ∈ (df.filter (fun r => r.city == c1)).map (·.temperature),
        (mkSummaryRow df c1).min_temperature ≤ t) ∧
    (∃ s u v, renderTab3 c1 c2 df = .rendered s u v ∧
      s.avg_temp1 = (mkSummaryRow df c1).avg_temperature ∧
      s.avg_temp2 = (mkSummaryRow df c2).avg_temperature ∧
      s.delta_temp = s.avg_temp2 - s.avg_temp1 ∧
      s.delta_precip = (mkSummaryRow df c2).total_precipitation -
        (mkSummaryRow df c1).total_precipitation ∧
      s.delta_humidity = (mkSummaryRow df c2).avg_humidity -
        (mkSummaryRow df c1).avg_humidity ∧
      s.delta_wind = (mkSummaryRow df c2).avg_wind_speed -
        (mkSummaryRow df c1).avg_wind_speed) := by
  have hmapne : (df.filter (fun r => r.city == c1)).map (·.temperature) ≠ [] := by
    intro h0
    exact h1 (List.map_eq_nil_iff.mp h0)
  refine ⟨?_, ?_, rfl, rfl, rfl, rfl, ?_, ?_, ?_⟩
  · intro r hr
    simpa using (List.mem_filter.mp hr).2
  · intro r hr hc
    exact List.mem_filter.mpr ⟨hr, by simp [hc]⟩
  · exact seriesMax_spec _ hmapne
  · exact seriesMin_spec _ hmapne
  · exact ⟨_, _, _, renderTab3_rendered df c1 c2 h1 h2,
      rfl, rfl, rfl, rfl, rfl, rfl⟩

/-- The end-to-end historical frame of the specification: city A has
temperatures 10, 20, 30 and city B has 15, 25, 35. -/
def exampleHistDf : List MeteostatRow :=
  [{ date := 1, city := "A", temperature := 10, precipitation := 1, snow := 0,
     wind_dir := "N", wind_speed := 5, humidity := 50, cloud_cover := 10,
     sunshine_duration := 4 },
   { date := 1, city := "B", temperature := 15, precipitation := 2, snow := 0,
     wind_dir := "S", wind_speed := 6, humidity := 55, cloud_cover := 20,
     sunshine_duration := 5 },
   { date := 2, city := "A", temperature := 20, precipitation := 0, snow := 0,
     wind_dir := "N", wind_speed := 7, humidity := 52, cloud_cover := 15,
     sunshine_duration := 6 },
   { date := 2, city := "B", temperature := 25, precipitation := 1, snow := 0,
     wind_dir := "S", wind_speed := 8, humidity := 57, cloud_cover := 25,
     sunshine_duration := 7 },
   { date := 3, city := "A", temperature := 30, precipitation := 2, snow := 0,
     wind_dir := "N", wind_speed := 9, humidity := 54, cloud_cover := 20,
     sunshine_duration := 8 },
   { date := 3, city := "B", temperature := 35, precipitation := 0, snow := 0,
     wind_dir := "S", wind_speed := 10, humidity := 59, cloud_cover := 30,
     sunshine_duration := 9 }]

/-- Witness for C5 on the specification's end-to-end scenario: the summary
theorem applies, the two mean temperatures are 20 and 25, and the rendered
temperature delta is plus five. -/
theorem historical_summary_stats_witness :
    (exampleHistDf.filter (fun r => r.city == "A") ≠ []) ∧
    (exampleHistDf.filter (fun r => r.city == "B") ≠ []) ∧
    (mkSummaryRow exampleHistDf "A").avg_temperature =
      ((exampleHistDf.filter (fun r => r.city == "A")).map (·.temperature)).sum /
        ((exampleHistDf.filter (fun r => r.city == "A")).map (·.temperature)).length ∧
    (mkSummaryRow exampleHistDf "A").avg_temperature = 20 ∧
    (mkSummaryRow exampleHistDf "B").avg_temperature = 25 ∧
    tab3DeltaTemp (renderTab3 "A" "B" exampleHistDf) = some 5 := by
  refine ⟨by decide, by decide,
    (historical_summary_stats exampleHistDf "A" "B" (by decide) (by decide)).2.2.1,
    ?_, ?_, ?_⟩
  · simp only [mkSummaryRow, seriesMean, exampleHistDf, List.filter, List.map]
    norm_num
  · simp only [mkSummaryRow, seriesMean, exampleHistDf, List.filter, List.map]
    norm_num
  · rw [renderTab3_rendered exampleHistDf "A" "B" (by decide) (by decide)]
    simp only [tab3DeltaTemp, Option.some.injEq]
    simp only [mkSummaryRow, seriesMean, exampleHistDf, List.filter, List.map]
    norm_num

/-- The per-city summary rows are distinguished by their city field. -/
lemma mkSummaryRow_inj (df : List MeteostatRow) (a b : String)
    (hab : mkSummaryRow df a = mkSummaryRow df b) : a = b := by
  have := congrArg SummaryRow.city hab
  simpa [mkSummaryRow] using this

/-- C10: in the Detailed Metrics historical summary each selected city's
six-scalar row is included exactly when that city's filtered historical
rows are non-empty, each city judged independently of the other; the table
is rendered whenever at least one of the two cities contributes a row, and
not rendered when neither does. -/
theorem tab4_per_city_inclusion (df : List MeteostatRow) (c1 c2 : String)
    (hne : c1 ≠ c2) :
    (mkSummaryRow df c1 ∈ summaryData df c1 c2 ↔
      df.filter (fun r => r.city == c1) ≠ []) ∧
    (mkSummaryRow df c2 ∈ summaryData df c1 c2 ↔
      df.filter (fun r => r.city == c2) ≠ []) ∧
    ((df.filter (fun r => r.city == c1) ≠ [] ∨
        df.filter (fun r => r.city == c2) ≠ []) →
      renderTab4Summary c1 c2 df = .rendered (summaryData df c1 c2) ∧
      summaryData df c1 c2 ≠ []) ∧
    (df.filter (fun r => r.city == c1) = [] ∧
        df.filter (fun r => r.city == c2) = [] →
      renderTab4Summary c1 c2 df = .notRendered) := by
  have hmem : ∀ c : String, c = c1 ∨ c = c2 →
      (mkSummaryRow df c ∈ summaryData df c1 c2 ↔
        df.filter (fun r => r.city == c) ≠ []) := by
    intro c hc
    constructor
    · intro hin
      obtain ⟨a, haf, hmk⟩ := List.mem_map.mp hin
      obtain ⟨_, hpa⟩ := List.mem_filter.mp haf
      have : a = c := mkSummaryRow_inj df a c hmk
      subst this
      intro h0
      rw [h0] at hpa
      simp at hpa
    · intro h0
      refine List.mem_map.mpr ⟨c, List.mem_filter.mpr ⟨?_, ?_⟩, rfl⟩
      · rcases hc with rfl | rfl
        · exact List.mem_cons_self c _
        · exact List.mem_cons_of_mem _ (List.mem_cons_self c _)
      · rw [isEmpty_false_of_ne_nil h0]
        rfl
  refine ⟨hmem c1 (Or.inl rfl), hmem c2 (Or.inr rfl), ?_, ?_⟩
  · intro h
    have hsd : summaryData df c1 c2 ≠ [] := by
      rcases h with h0 | h0
      · intro hnil
        rw [hnil] at hmem
        exact (List.not_mem_nil _) ((hmem c1 (Or.inl rfl)).mpr h0)
      · intro hnil
        rw [hnil] at hmem
        exact (List.not_mem_nil _) ((hmem c2 (Or.inr rfl)).mpr h0)
    have hdf : df ≠ [] := by
      rcases h with h0 | h0 <;> intro hd <;> rw [hd] at h0 <;> exact h0 rfl
    refine ⟨?_, hsd⟩
    simp only [renderTab4Summary, isEmpty_false_of_ne_nil hdf,
      isEmpty_false_of_ne_nil hsd]
    simp
  · intro ⟨hA, hB⟩
    have hsd : summaryData df c1 c2 = [] := by
      simp only [summaryData]
      rw [List.map_eq_nil_iff, List.filter_eq_nil_iff]
      intro a ha hpa
      rcases List.mem_cons.mp ha with rfl | ha2
      · rw [hA] at hpa
        simp at hpa
      · rcases List.mem_cons.mp ha2 with rfl | ha3
        · rw [hB] at hpa
          simp at hpa
        · exact (List.not_mem_nil a) ha3
    unfold renderTab4Summary
    rw [hsd]
    simp

/-- Witness for C10: on a frame containing only city-B rows, city B's row
is included, the filter hypothesis is concrete, and the table is rendered
from city B's contribution alone while city A contributes nothing. -/
theorem tab4_per_city_inclusion_witness :
    (("A" : String) ≠ "B") ∧
    (histBOnlyDf.filter (fun r => r.city == "A") = []) ∧
    (histBOnlyDf.filter (fun r => r.city == "B") ≠ []) ∧
    (renderTab4Summary "A" "B" histBOnlyDf =
      .rendered (summaryData histBOnlyDf "A" "B") ∧
      summaryData histBOnlyDf "A" "B" ≠ []) :=
  ⟨by decide, by decide, by decide,
    (tab4_per_city_inclusion histBOnlyDf "A" "B" (by decide)).2.2.1
      (Or.inr (by decide))⟩
